import Mathlib

/-!
Verification development for the client-side secure-conversation access-control
core of the chat application: the chat slice (conversation/message lock state),
the auth slice (session guard), the app-state slice (duress mode), the store
wiring (persistence), and the chat screen's unlock/relock logic.

Shallow embedding conventions: machine timestamps (`Date.now()`) are `Int`
milliseconds; optional TypeScript fields (`is_verified?: boolean`,
`verification_attempts?: number`) are `Option`s, with JavaScript
`x || 0` / truthiness mirrored by `Option.getD` and explicit matches;
network calls are parameterised by the backend's answer and the issued
request is returned as data so that "no network call was made" is a
provable statement.
-/

namespace ChatApp

/-! ## Chat slice data model (src/app/store/slices/chatSlice.ts) -/

/-- The `Message` from chatSlice.ts: `text` holds translated or original content,
`originalText` the original, `secondary_auth` flags the second lock,
`is_verified` / `verification_attempts` are the optional secondary-auth fields. -/
structure Message where
  id : String
  sender_id : Option String
  text : String
  originalText : Option String
  timestamp : Int
  secondary_auth : Bool
  is_verified : Option Bool
  verification_attempts : Option Nat
deriving Repr, DecidableEq

/-- The `Chat` from chatSlice.ts. -/
structure Chat where
  id : String
  name : String
  lastMessage : Option String
  unreadCount : Nat
  messages : List Message
  status : Option String
deriving Repr, DecidableEq

/-- The `ChatState` from chatSlice.ts: `currentChatCode` is the verified primary
code cached in memory for the currently open conversation. -/
structure ChatState where
  chats : List Chat
  currentChatId : Option String
  currentChatCode : Option String
  isLoading : Bool
  error : Option String
deriving Repr, DecidableEq

/-- The `initialState` of the chat slice. -/
def initialChatState : ChatState :=
  { chats := [], currentChatId := none, currentChatCode := none,
    isLoading := false, error := none }

/-- Immer-style `state.chats.find(c => c.id === chatId)` followed by mutation:
update the first chat with the given id, leave the rest unchanged. -/
def updateFirstChat (chats : List Chat) (chatId : String) (f : Chat → Chat) :
    List Chat :=
  match chats with
  | [] => []
  | c :: rest =>
      if c.id = chatId then f c :: rest else c :: updateFirstChat rest chatId f

/-- The `chat.messages.find(m => m.id === messageId)` followed by mutation. -/
def updateFirstMessage (msgs : List Message) (messageId : String)
    (f : Message → Message) : List Message :=
  match msgs with
  | [] => []
  | m :: rest =>
      if m.id = messageId then f m :: rest else m :: updateFirstMessage rest messageId f

/-- The `findFirstChat` mirrors `state.chats.find(c => c.id === chatId)`. -/
def findFirstChat (chats : List Chat) (chatId : String) : Option Chat :=
  chats.find? (fun c => c.id = chatId)

/-- The `findFirstMessage` mirrors `chat.messages.find(m => m.id === messageId)`. -/
def findFirstMessage (msgs : List Message) (messageId : String) : Option Message :=
  msgs.find? (fun m => m.id = messageId)

/-- Reducer `setCurrentChat`: sets the current chat id, resets the cached
primary code to null, and zeroes the unread count of the selected chat. -/
def setCurrentChat (s : ChatState) (chatId : String) : ChatState :=
  { s with
    currentChatId := some chatId
    currentChatCode := none
    chats := updateFirstChat s.chats chatId (fun c => { c with unreadCount := 0 }) }

/-- Reducer `clearCurrentChat`: clears the current chat id and the cached
primary code when leaving a chat. -/
def clearCurrentChat (s : ChatState) : ChatState :=
  { s with currentChatId := none, currentChatCode := none }

/-- Reducer `manuallyLockMessage`: if the targeted message is verified
(truthy `is_verified`), mark it locked again. -/
def manuallyLockMessage (s : ChatState) (chatId messageId : String) : ChatState :=
  { s with chats := updateFirstChat s.chats chatId (fun c =>
      { c with messages := updateFirstMessage c.messages messageId (fun m =>
          if m.is_verified.getD false then { m with is_verified := some false } else m) }) }

/-- The `fetchChatMessages.fulfilled`: stores the fetched messages on the chat and,
when the payload is for the currently open chat, caches the primary code. -/
def fetchChatMessagesFulfilled (s : ChatState) (chatId : String)
    (messages : List Message) (code : String) : ChatState :=
  let s1 : ChatState :=
    { s with isLoading := false,
             chats := updateFirstChat s.chats chatId (fun c => { c with messages := messages }) }
  if s1.currentChatId = some chatId then { s1 with currentChatCode := some code } else s1

/-- The `fetchChatMessages.rejected`: records the error and drops the cached code. -/
def fetchChatMessagesRejected (s : ChatState) (err : String) : ChatState :=
  { s with isLoading := false, error := some err, currentChatCode := none }

/-- The `verifySecondaryCode.fulfilled`: marks the message verified and resets the
attempt counter. -/
def verifySecondaryCodeFulfilled (s : ChatState) (chatId messageId : String) :
    ChatState :=
  { s with chats := updateFirstChat s.chats chatId (fun c =>
      { c with messages := updateFirstMessage c.messages messageId (fun m =>
          { m with is_verified := some true, verification_attempts := some 0 }) }) }

/-- The `fetchUnlockedMessage.fulfilled`: replaces the displayed content with the
decrypted content, marks the message verified, resets the attempt counter. -/
def fetchUnlockedMessageFulfilled (s : ChatState) (chatId messageId : String)
    (decryptedContent : String) (translatedContent : Option String) : ChatState :=
  { s with chats := updateFirstChat s.chats chatId (fun c =>
      { c with messages := updateFirstMessage c.messages messageId (fun m =>
          { m with text := translatedContent.getD decryptedContent,
                   originalText := some decryptedContent,
                   is_verified := some true,
                   verification_attempts := some 0 }) }) }

/-! ### The secondary-code attempt escalation (chatSlice.ts, verifySecondaryCode.rejected)

The reducer increments `verification_attempts` and, once the counter reaches 3,
raises an `Alert` whose OK button calls `dispatch(logout())`. The only
`dispatch` in scope at that point is the module-level function declared at the
bottom of chatSlice.ts, which unconditionally throws
`Error('Function not implemented.')`; it is embedded as `chatSliceModuleDispatch`. -/

/-- The thunk actions the chat slice module tries to dispatch. -/
inductive ThunkAction where
  | logoutAction
deriving Repr, DecidableEq

/-- The module-level `function dispatch(...)` at the bottom of chatSlice.ts:
`throw new Error('Function not implemented.')`. -/
def chatSliceModuleDispatch (_ : ThunkAction) : Except String Unit :=
  Except.error "Function not implemented."

/-- The alert raised by the escalation branch. -/
structure EscalationAlert where
  title : String
  body : String
deriving Repr, DecidableEq

/-- The `verifySecondaryCode.rejected`: increments the attempt counter of the
targeted message; when the new counter reaches 3 or more, raises the
too-many-attempts alert. Returns the new state and the alerts raised. -/
def verifySecondaryCodeRejected (s : ChatState) (chatId messageId : String) :
    ChatState × List EscalationAlert :=
  match findFirstChat s.chats chatId with
  | none => (s, [])
  | some c =>
    match findFirstMessage c.messages messageId with
    | none => (s, [])
    | some m =>
      let newAttempts := m.verification_attempts.getD 0 + 1
      let s1 : ChatState :=
        { s with chats := updateFirstChat s.chats chatId (fun ch =>
            { ch with messages := updateFirstMessage ch.messages messageId (fun msg =>
                { msg with verification_attempts := some (msg.verification_attempts.getD 0 + 1) }) }) }
      if newAttempts ≥ 3 then
        (s1, [{ title := "Too Many Failed Attempts",
                body := "You have entered the wrong code too many times. You will be logged out for security." }])
      else (s1, [])

/-- The OK-button handler of the escalation alert: `dispatch(logout())`, which
resolves to the module-level stub dispatch. -/
def escalationAlertOnOk : Except String Unit :=
  chatSliceModuleDispatch ThunkAction.logoutAction

/-- Number of logout dispatches the escalation path actually performs: one if
the OK handler succeeds, zero if it throws. -/
def escalationLogoutsPerformed : Nat :=
  match escalationAlertOnOk with
  | Except.ok _ => 1
  | Except.error _ => 0

/-! ### The verifySecondaryCode thunk (chatSlice.ts) -/

/-- Arguments of the `verifySecondaryCode` thunk. An absent primary code is the
empty string (JavaScript falsiness of `!primaryCode`). -/
structure VerifySecondaryArgs where
  chatId : String
  messageId : String
  secondaryCode : String
  primaryCode : String
deriving Repr, DecidableEq

/-- The network request the thunk would issue: the primary code travels in the
`X-Convo-Code` header and the secondary code in `X-Second-Code`. -/
structure SecondaryVerifyRequest where
  chatId : String
  messageId : String
  convoCodeHeader : String
  secondCodeHeader : String
deriving Repr, DecidableEq

/-- Fulfilled payload of `verifySecondaryCode`. -/
structure VerifySecondaryPayload where
  chatId : String
  messageId : String
  primaryCode : String
  secondaryCode : String
deriving Repr, DecidableEq

/-- The `verifySecondaryCode` thunk body: if `primaryCode` is falsy it rejects
locally before any network call; otherwise it issues the request (returned as
data) and resolves according to the backend's `valid` answer. -/
def verifySecondaryCode (args : VerifySecondaryArgs) (backendValid : Bool) :
    Except String VerifySecondaryPayload × Option SecondaryVerifyRequest :=
  if args.primaryCode = "" then
    (Except.error "Primary conversation code not found. Cannot verify secondary code.", none)
  else
    let req : SecondaryVerifyRequest :=
      { chatId := args.chatId, messageId := args.messageId,
        convoCodeHeader := args.primaryCode, secondCodeHeader := args.secondaryCode }
    if backendValid then
      (Except.ok { chatId := args.chatId, messageId := args.messageId,
                   primaryCode := args.primaryCode, secondaryCode := args.secondaryCode },
       some req)
    else
      (Except.error "Invalid secondary code", some req)

/-! ### The approveConversation flow (src/unnamed/part_005 and chatSlice.ts) -/

/-- Backend response to the approve call. -/
structure ApproveResponse where
  httpStatus : Nat
  status : Option String
deriving Repr, DecidableEq

/-- The `approveConversation` thunk body: on HTTP 200/204 resolves with the
chat id and the backend status, defaulting to "approved". -/
def approveConversation (chatId : String) (_code : String) (resp : ApproveResponse) :
    Except String (String × String) :=
  if resp.httpStatus = 200 ∨ resp.httpStatus = 204 then
    Except.ok (chatId, resp.status.getD "approved")
  else
    Except.error "Failed to approve conversation."

/-- The `approveConversation.fulfilled`: updates the status of the specific chat. -/
def approveConversationFulfilled (s : ChatState) (chatId status : String) : ChatState :=
  { s with chats := updateFirstChat s.chats chatId (fun c => { c with status := some status }) }

/-- The request `handleApproveConversation` would send (body carries only the
chosen code: the confirmation never reaches the backend). -/
structure ApproveCallRecord where
  chatId : String
  code : String
deriving Repr, DecidableEq

/-- The `handleApproveConversation` from the conversations screen: local
empty/mismatch checks run before any dispatch; the pair returned is the
`approveCodeError` UI state and the network call issued (`none` = no call). -/
def handleApproveConversation (selectedChatIdForApprove : Option String)
    (enteredApproveCode confirmApproveCode : String) :
    Option String × Option ApproveCallRecord :=
  match selectedChatIdForApprove with
  | none => (none, none)
  | some chatId =>
    if enteredApproveCode = "" ∨ confirmApproveCode = "" then
      (some "Please enter and confirm the code.", none)
    else if enteredApproveCode ≠ confirmApproveCode then
      (some "Codes do not match.", none)
    else
      (none, some { chatId := chatId, code := enteredApproveCode })

/-! ## Auth slice / Session Guard (src/unnamed/part_010, final version)

Timestamps are millisecond `Int`s. The SecureStore vault holds the three keys
`token`, `user`, `sessionExpiryTime`; the source stores the user as a JSON
string and the expiry as a decimal string, here modelled at their parsed
values (presence and value are what the claims are about). -/

/-- The `SESSION_EXPIRE_TIME = (59 * 60 + 59) * 1000` — 59 minutes 59 seconds. -/
def SESSION_EXPIRE_TIME : Int := (59 * 60 + 59) * 1000

/-- The `EXPIRY_WARNING_TIME = 30 * 1000` — 30 seconds before expiry. -/
def EXPIRY_WARNING_TIME : Int := 30 * 1000

/-- A user record as returned by the backend. -/
structure AuthUser where
  id : String
  email : String
deriving Repr, DecidableEq

/-- The `AuthState` of the auth slice. -/
structure AuthState where
  user : Option AuthUser
  token : Option String
  isLoading : Bool
  error : Option String
  sessionExpiryTime : Option Int
  showExpiryWarning : Bool
  initialized : Bool
deriving Repr, DecidableEq

/-- The `initialState` of the auth slice. -/
def initialAuthState : AuthState :=
  { user := none, token := none, isLoading := false, error := none,
    sessionExpiryTime := none, showExpiryWarning := false, initialized := false }

/-- The SecureStore credential vault: the three auth keys. -/
structure Vault where
  token : Option String
  user : Option AuthUser
  sessionExpiryTime : Option Int
deriving Repr, DecidableEq

/-- Payload of a successful `login` thunk. -/
structure LoginPayload where
  user : AuthUser
  token : String
  sessionExpiryTime : Int
deriving Repr, DecidableEq

/-- The `login` thunk after a successful backend response: computes
`sessionExpiryTime = Date.now() + SESSION_EXPIRE_TIME` and writes token, user
and expiry to the vault. -/
def login (v : Vault) (now : Int) (user : AuthUser) (token : String) :
    Vault × LoginPayload :=
  let sessionExpiryTime := now + SESSION_EXPIRE_TIME
  ({ v with token := some token, user := some user,
            sessionExpiryTime := some sessionExpiryTime },
   { user := user, token := token, sessionExpiryTime := sessionExpiryTime })

/-- The `login.fulfilled` reducer. -/
def loginFulfilled (s : AuthState) (p : LoginPayload) : AuthState :=
  { s with isLoading := false, initialized := true, user := some p.user,
           token := some p.token, sessionExpiryTime := some p.sessionExpiryTime }

/-- The `logout` thunk: deletes the three vault keys. -/
def logout (_v : Vault) : Vault :=
  { token := none, user := none, sessionExpiryTime := none }

/-- The `logout.fulfilled` reducer: clears the in-memory session fields and the
warning flag (initialized stays true). -/
def logoutFulfilled (s : AuthState) : AuthState :=
  { s with isLoading := false, user := none, token := none,
           sessionExpiryTime := none, showExpiryWarning := false }

/-- Payload of the `checkSessionExpiry` thunk. -/
structure ExpiryCheckPayload where
  showWarning : Bool
  expired : Bool
deriving Repr, DecidableEq

/-- The `checkSessionExpiry` thunk body (no-error path): with a token and an
expiry time in state, expiry (`now >= expiresAt`) dispatches `logout` and
reports no warning; a remaining time in `(0, EXPIRY_WARNING_TIME]` reports the
warning; anything else reports no warning. The Bool is whether `logout` was
dispatched. -/
def checkSessionExpiry (auth : AuthState) (now : Int) : ExpiryCheckPayload × Bool :=
  match auth.token, auth.sessionExpiryTime with
  | some _, some expiry =>
      let timeUntilExpiry := expiry - now
      if now ≥ expiry then
        ({ showWarning := false, expired := true }, true)
      else if timeUntilExpiry ≤ EXPIRY_WARNING_TIME ∧ timeUntilExpiry > 0 then
        ({ showWarning := true, expired := false }, false)
      else
        ({ showWarning := false, expired := false }, false)
  | _, _ => ({ showWarning := false, expired := false }, false)

/-- The catch clause of `checkSessionExpiry`: an error during the check yields
`{ showWarning: false, expired: false }` and dispatches nothing. -/
def checkSessionExpiryCatch : ExpiryCheckPayload × Bool :=
  ({ showWarning := false, expired := false }, false)

/-- One full expiry poll: runs the thunk (or its catch clause when
`errorThrown`), applies the logout cascade when dispatched (vault cleared by
the thunk, then `logout.fulfilled`), then `checkSessionExpiry.fulfilled`
stores the warning flag. -/
def checkSessionExpiryStep (auth : AuthState) (v : Vault) (now : Int)
    (errorThrown : Bool) : AuthState × Vault :=
  let (payload, didLogout) :=
    if errorThrown then checkSessionExpiryCatch else checkSessionExpiry auth now
  let auth1 := if didLogout then logoutFulfilled auth else auth
  let v1 := if didLogout then logout v else v
  ({ auth1 with showExpiryWarning := payload.showWarning }, v1)

/-! ## App-state slice / Duress Mode (appStateSlice, in src/app/hooks/useAppTheme.ts) -/

/-- The `DisguiseType` from the app-state slice. -/
inductive DisguiseType where
  | calculator
  | weather
  | notes
deriving Repr, DecidableEq

/-- The app-state (duress/SOS) slice state. -/
structure AppStateState where
  sosModeActive : Bool
  sosActivationTime : Option Int
  selectedDisguise : Option DisguiseType
deriving Repr, DecidableEq

/-- The `initialState` of the app-state slice. -/
def initialAppState : AppStateState :=
  { sosModeActive := false, sosActivationTime := none, selectedDisguise := none }

/-- Reducer `enterSosMode`: records the activation time only when not already
active, then sets the active flag. -/
def enterSosMode (s : AppStateState) (now : Int) : AppStateState :=
  let s1 := if ¬s.sosModeActive then { s with sosActivationTime := some now } else s
  { s1 with sosModeActive := true }

/-- Reducer `exitSosMode`: clears the flag, the activation time and the
disguise selection. -/
def exitSosMode (s : AppStateState) : AppStateState :=
  { s with sosModeActive := false, sosActivationTime := none, selectedDisguise := none }

/-- Reducer `setSosDisguise`: sets the disguise only while SOS mode is active. -/
def setSosDisguise (s : AppStateState) (d : DisguiseType) : AppStateState :=
  if s.sosModeActive then { s with selectedDisguise := some d } else s

/-! ### AppWrapper effects (second file in src/utils/authDebugger.ts) -/

/-- The `disguiseOptions = Object.keys(disguiseComponents)`. -/
def disguiseOptions : List DisguiseType :=
  [DisguiseType.calculator, DisguiseType.weather, DisguiseType.notes]

/-- The disguise-selection effect: when SOS mode is active and no disguise is
selected, dispatches `setSosDisguise(disguiseOptions[randomIndex])` with
`randomIndex = Math.floor(Math.random() * disguiseOptions.length)`. -/
def selectDisguiseEffect (s : AppStateState) (randomIndex : Fin 3) : AppStateState :=
  if s.sosModeActive ∧ s.selectedDisguise = none then
    setSosDisguise s (disguiseOptions.get randomIndex)
  else s

/-- Thirty minutes in milliseconds. -/
def THIRTY_MINUTES : Int := 30 * 60 * 1000

/-- What a run of the SOS auto-logout effect leaves pending. Any previously
pending timer was already cleared at the top of the effect and by the effect
cleanup, so the result fully describes the pending timer after the run. -/
inductive SosEffectResult where
  | immediateLogout
  | timerScheduled (delay : Int)
  | noTimer
deriving Repr, DecidableEq

/-- The SOS auto-logout effect body: with SOS active and an activation time,
computes `timeRemaining = 30min - (now - activatedAt)`; non-positive remaining
logs out immediately, otherwise a timer is scheduled for the remaining time.
In any other state no timer is left pending. -/
def sosLogoutEffect (s : AppStateState) (now : Int) : SosEffectResult :=
  match s.sosActivationTime with
  | some activatedAt =>
      if s.sosModeActive then
        let timeRemaining := THIRTY_MINUTES - (now - activatedAt)
        if timeRemaining ≤ 0 then SosEffectResult.immediateLogout
        else SosEffectResult.timerScheduled timeRemaining
      else SosEffectResult.noTimer
  | none => SosEffectResult.noTimer

/-- Outcome of the scheduled timer firing. -/
structure SosFireOutcome where
  alertShown : Bool
  logoutDispatched : Bool
deriving Repr, DecidableEq

/-- The timer callback: re-reads `store.getState().appState.sosModeActive`;
only when SOS mode is still active does it alert and dispatch `logout`. -/
def sosTimerFire (current : AppStateState) : SosFireOutcome :=
  if current.sosModeActive then { alertShown := true, logoutDispatched := true }
  else { alertShown := false, logoutDispatched := false }

/-! ## Store wiring (src/app/store/store.ts) and root logout cascade -/

/-- The root state assembled by `combineReducers` (theme and search slices are
pure UI preferences and carry no access-control state; they are omitted). -/
structure RootState where
  auth : AuthState
  chat : ChatState
  appState : AppStateState
deriving Repr, DecidableEq

/-- The slice keys of the `combineReducers` call in store.ts. -/
def sliceNames : List String := ["auth", "chat", "theme", "search", "appState"]

/-- Which slice reducers store.ts wraps in `persistReducer` (AsyncStorage
backed): exactly the `appState` slice. -/
def persistWrapped (name : String) : Bool := name = "appState"

/-- The `key` of `appStatePersistConfig`. -/
def appStatePersistConfigKey : String := "appState"

/-- What redux-persist writes to AsyncStorage for this store: the state of the
one wrapped slice. -/
def persistedPayload (r : RootState) : AppStateState := r.appState

/-- Modelled from redux-persist REHYDRATE semantics (external library): on
startup the wrapped `appState` slice is restored from the AsyncStorage
snapshot when one exists, while the unwrapped slices start from their initial
states (auth is separately rebuilt from the vault by `initializeAuth`). -/
def rehydrate (stored : Option AppStateState) : RootState :=
  { auth := initialAuthState, chat := initialChatState,
    appState := stored.getD initialAppState }

/-- One dispatch of the `logout` thunk against the whole store: the thunk
clears the vault, `logout.fulfilled` clears the auth slice. Neither chatSlice
nor appStateSlice registers a case for the logout actions, so those reducers
return their state unchanged (Redux default). -/
def rootLogoutStep (r : RootState) (v : Vault) : RootState × Vault :=
  ({ r with auth := logoutFulfilled r.auth }, logout v)

/-! ## Chat screen unlock/relock logic (src/app/chat/[id].tsx) -/

/-- The `AUTO_RELOCK_DURATION = 60 * 1000`. -/
def AUTO_RELOCK_DURATION : Int := 60 * 1000

/-- The screen-local `unlockedTimestamps` object, as an association list from
message id to unlock timestamp. -/
abbrev UnlockedTimestamps := List (String × Int)

/-- The `isCurrentlyUnlocked` from renderMessage:
`item.is_verified === true && unlockedTimestamps[item.id] &&
 (Date.now() - unlockedTimestamps[item.id] < AUTO_RELOCK_DURATION)`;
the middle conjunct is JavaScript number truthiness (0 is falsy). -/
def isCurrentlyUnlocked (m : Message) (ts : UnlockedTimestamps) (now : Int) : Bool :=
  m.is_verified == some true &&
    (match List.lookup m.id ts with
     | none => false
     | some t => t != 0 && now - t < AUTO_RELOCK_DURATION)

/-- renderMessage shows the locked bubble (no content text) exactly when
`item.secondary_auth && !isCurrentlyUnlocked`. -/
def rendersLockedBubble (m : Message) (ts : UnlockedTimestamps) (now : Int) : Bool :=
  m.secondary_auth && !(isCurrentlyUnlocked m ts now)

/-- renderMessage shows `item.text` (the unlocked/normal bubble) in the
other branch. -/
def showsContentText (m : Message) (ts : UnlockedTimestamps) (now : Int) : Bool :=
  !(rendersLockedBubble m ts now)

/-- The `checkRelock`: drops every unlock timestamp with
`now - unlockedTimestamps[msgId] > AUTO_RELOCK_DURATION`. -/
def checkRelock (ts : UnlockedTimestamps) (now : Int) : UnlockedTimestamps :=
  ts.filter (fun p => !(now - p.2 > AUTO_RELOCK_DURATION))

/-- The chat screen state the sweep touches: the redux chat state and the
screen-local unlock timestamps. -/
structure ChatScreenState where
  chatState : ChatState
  unlockedTimestamps : UnlockedTimestamps
deriving Repr, DecidableEq

/-- One tick of the recurring 10-second interval: runs `checkRelock` on the
local timestamps. It dispatches no redux action, so the chat slice (message
contents, `is_verified` flags) is untouched. -/
def sweepTick (s : ChatScreenState) (now : Int) : ChatScreenState :=
  { s with unlockedTimestamps := checkRelock s.unlockedTimestamps now }

/-- Verification-modal state of the chat screen. -/
structure VerifyModalState where
  secondaryModalVisible : Bool
  secondaryVerifyAttempts : Nat
deriving Repr, DecidableEq

/-- The rejection branch of `handleVerifySecondaryCode` in the chat screen:
the local attempt counter increments; on the third `Invalid secondary code`
rejection the modal is closed (`closeSecondaryModal` resets the counter).
The screen dispatches no logout. -/
def handleVerifyRejection (st : VerifyModalState) (payloadIsInvalidCode : Bool) :
    VerifyModalState :=
  let updatedAttempts := st.secondaryVerifyAttempts + 1
  if updatedAttempts ≥ 3 ∧ payloadIsInvalidCode then
    { secondaryModalVisible := false, secondaryVerifyAttempts := 0 }
  else
    { st with secondaryVerifyAttempts := updatedAttempts }

/-! ## Helper lemmas -/

/-- Updating the first chat with a given id commutes with finding it, when the
update preserves the id. -/
theorem findFirstChat_updateFirstChat (chats : List Chat) (chatId : String)
    (f : Chat → Chat) (hf : ∀ c, (f c).id = c.id) :
    findFirstChat (updateFirstChat chats chatId f) chatId =
      (findFirstChat chats chatId).map f := by
  induction chats with
  | nil => rfl
  | cons c rest ih =>
      by_cases h : c.id = chatId
      · simp [findFirstChat, updateFirstChat, h, hf, List.find?_cons_of_pos]
      · simp only [findFirstChat, updateFirstChat, if_neg h] at ih ⊢
        rw [List.find?_cons_of_neg, List.find?_cons_of_neg] <;> simp [h, ih]

/-! ## Claim theorems -/

/-- C1: the claim says three consecutive InvalidCode rejections for the same
message trigger exactly one forced-logout sequence. In the code, the third
rejection does raise the escalation alert and the chat screen closes the
verification modal, but the OK handler of the alert calls the module-level
stub `dispatch` of chatSlice.ts, which throws "Function not implemented.", so
zero forced logouts are performed — evaluated here at the failing input. -/
theorem c1_stub_dispatch_prevents_forced_logout :
    let m : Message := ⟨"m1", some "u2", "[locked]", none, 0, true, some false, some 2⟩
    let s : ChatState :=
      { initialChatState with chats := [⟨"c1", "Alice", none, 0, [m], some "approved"⟩] }
    let result := verifySecondaryCodeRejected s "c1" "m1"
    (result.1.chats.map fun c => c.messages.map fun msg => msg.verification_attempts)
        = [[some 3]]
    ∧ result.2.length = 1
    ∧ (handleVerifyRejection ⟨true, 2⟩ true).secondaryModalVisible = false
    ∧ escalationAlertOnOk = Except.error "Function not implemented."
    ∧ escalationLogoutsPerformed = 0 := by
  exact ⟨rfl, rfl, rfl, rfl, rfl⟩

/-- C2 counterexample: logout does not clear the chat slice's cached primary
code, the message verified flags, or the duress slice, refuting the claim at a
concrete state. -/
theorem c2_logout_leaves_controller_state :
    let m : Message := ⟨"m1", some "u2", "secret", some "secret", 0, true, some true, some 0⟩
    let r : RootState :=
      { auth := { initialAuthState with token := some "tok", sessionExpiryTime := some 99 }
        chat := { initialChatState with
                    chats := [⟨"c1", "Alice", none, 0, [m], some "approved"⟩],
                    currentChatId := some "c1", currentChatCode := some "1234" }
        appState := { sosModeActive := true, sosActivationTime := some 5,
                      selectedDisguise := some DisguiseType.calculator } }
    let r1 := (rootLogoutStep r ⟨some "tok", none, some 99⟩).1
    r1.chat.currentChatCode = some "1234"
    ∧ r1.appState.sosModeActive = true
    ∧ r1.appState.selectedDisguise = some DisguiseType.calculator
    ∧ (r1.chat.chats.map fun c => c.messages.map fun msg => msg.is_verified) = [[some true]] := by
  exact ⟨rfl, rfl, rfl, rfl⟩

/-- C2 amended: the logout cascade clears the three vault entries and the
in-memory Session fields of the auth slice, but leaves the chat slice (cached
primary code, per-message verified state) and the duress slice untouched. -/
theorem c2_logout_clears_vault_and_session (r : RootState) (v : Vault) :
    (rootLogoutStep r v).2 = { token := none, user := none, sessionExpiryTime := none }
    ∧ (rootLogoutStep r v).1.auth.user = none
    ∧ (rootLogoutStep r v).1.auth.token = none
    ∧ (rootLogoutStep r v).1.auth.sessionExpiryTime = none
    ∧ (rootLogoutStep r v).1.auth.showExpiryWarning = false
    ∧ (rootLogoutStep r v).1.chat = r.chat
    ∧ (rootLogoutStep r v).1.appState = r.appState := by
  exact ⟨rfl, rfl, rfl, rfl, rfl, rfl, rfl⟩

/-- C3 counterexample: the 10-second sweep removes the stale unlock timestamp
(the message renders locked again) but does not reset the message's
`is_verified` flag to false — the redux chat state is untouched. -/
theorem c3_sweep_does_not_reset_verified :
    let m : Message := ⟨"m1", some "u2", "secret", some "secret", 0, true, some true, some 0⟩
    let scr : ChatScreenState :=
      ⟨{ initialChatState with chats := [⟨"c1", "Alice", none, 0, [m], some "approved"⟩] },
       [("m1", 1)]⟩
    (sweepTick scr 100000).unlockedTimestamps = []
    ∧ rendersLockedBubble m (sweepTick scr 100000).unlockedTimestamps 100000 = true
    ∧ (sweepTick scr 100000).chatState = scr.chatState
    ∧ m.is_verified = some true := by
  exact ⟨rfl, rfl, rfl, rfl⟩

/-- C3 amended: whenever the render shows the content of a secondary-auth
message, its `is_verified` flag is `some true`, an unlock timestamp is set and
`now - t < AUTO_RELOCK_DURATION` (hence at most 60s); the sweep keeps exactly
the timestamps within the TTL (relocking the others) and never touches the
chat slice, so decrypted content and verified flags stay in memory. -/
theorem c3_render_invariant_and_sweep (m : Message) (ts : UnlockedTimestamps)
    (now : Int) (hsec : m.secondary_auth = true)
    (hshow : showsContentText m ts now = true) :
    (m.is_verified = some true ∧
      ∃ t, List.lookup m.id ts = some t ∧ now - t < AUTO_RELOCK_DURATION)
    ∧ (∀ scr : ChatScreenState, ∀ n : Int, (sweepTick scr n).chatState = scr.chatState)
    ∧ (∀ p : String × Int, p ∈ checkRelock ts now ↔ p ∈ ts ∧ now - p.2 ≤ AUTO_RELOCK_DURATION) := by
  refine ⟨?_, fun scr n => rfl, ?_⟩
  · simp only [showsContentText, rendersLockedBubble, hsec, Bool.true_and, Bool.not_not] at hshow
    simp only [isCurrentlyUnlocked, Bool.and_eq_true, beq_iff_eq] at hshow
    refine ⟨hshow.1, ?_⟩
    rcases hshow with ⟨-, hlook⟩
    cases h : List.lookup m.id ts with
    | none => rw [h] at hlook; simp at hlook
    | some t =>
        rw [h] at hlook
        simp only [Bool.and_eq_true, bne_iff_ne, decide_eq_true_eq] at hlook
        exact ⟨t, rfl, hlook.2⟩
  · intro p
    simp [checkRelock, List.mem_filter, not_lt]

/-- C3 witness: the amended theorem applied at a concrete unlocked render. -/
theorem c3_render_invariant_witness :
    (⟨"m1", some "u2", "secret", some "secret", 0, true, some true,
       some 0⟩ : Message).is_verified = some true ∧
    ∃ t, List.lookup "m1" ([("m1", (40000 : Int))] : UnlockedTimestamps) = some t ∧
      (90000 : Int) - t < AUTO_RELOCK_DURATION :=
  (c3_render_invariant_and_sweep
    ⟨"m1", some "u2", "secret", some "secret", 0, true, some true, some 0⟩
    [("m1", 40000)] 90000 rfl (by decide)).1

/-- C4: login persists expiry = now + 3599s together with token and user; an
expiry poll forces logout (clearing the vault keys) once now >= expiresAt,
shows the warning exactly when 0 < expiresAt - now <= 30s, clears it
otherwise, and an error during the check is treated as not yet expired. -/
theorem c4_session_timing (v : Vault) (loginNow now : Int) (u : AuthUser)
    (tok : String) (auth : AuthState) (t : String) (e : Int)
    (htok : auth.token = some t) (hexp : auth.sessionExpiryTime = some e) :
    ((login v loginNow u tok).1 =
        { token := some tok, user := some u,
          sessionExpiryTime := some (loginNow + 3599 * 1000) }
      ∧ (login v loginNow u tok).2.sessionExpiryTime = loginNow + 3599 * 1000)
    ∧ (now ≥ e →
        (checkSessionExpiryStep auth v now false).2 =
            { token := none, user := none, sessionExpiryTime := none }
        ∧ (checkSessionExpiryStep auth v now false).1.token = none
        ∧ (checkSessionExpiryStep auth v now false).1.user = none
        ∧ (checkSessionExpiryStep auth v now false).1.sessionExpiryTime = none
        ∧ (checkSessionExpiryStep auth v now false).1.showExpiryWarning = false)
    ∧ (0 < e - now ∧ e - now ≤ 30 * 1000 →
        (checkSessionExpiryStep auth v now false).1.showExpiryWarning = true
        ∧ (checkSessionExpiryStep auth v now false).2 = v
        ∧ (checkSessionExpiryStep auth v now false).1.token = auth.token)
    ∧ (30 * 1000 < e - now →
        (checkSessionExpiryStep auth v now false).1.showExpiryWarning = false
        ∧ (checkSessionExpiryStep auth v now false).2 = v
        ∧ (checkSessionExpiryStep auth v now false).1.token = auth.token)
    ∧ ((checkSessionExpiryStep auth v now true).2 = v
        ∧ (checkSessionExpiryStep auth v now true).1.token = auth.token
        ∧ (checkSessionExpiryStep auth v now true).1.showExpiryWarning = false) := by
  refine ⟨⟨?_, ?_⟩, ?_, ?_, ?_, rfl, rfl, rfl⟩
  · simp only [login, SESSION_EXPIRE_TIME]; norm_num
  · simp only [login, SESSION_EXPIRE_TIME]; norm_num
  · intro h
    have hval : checkSessionExpiry auth now =
        ({ showWarning := false, expired := true }, true) := by
      simp only [checkSessionExpiry, htok, hexp]
      rw [if_pos h]
    simp [checkSessionExpiryStep, hval, logout, logoutFulfilled]
  · rintro ⟨h1, h2⟩
    have hval : checkSessionExpiry auth now =
        ({ showWarning := true, expired := false }, false) := by
      simp only [checkSessionExpiry, htok, hexp, EXPIRY_WARNING_TIME]
      rw [if_neg (by omega), if_pos (by omega)]
    simp [checkSessionExpiryStep, hval]
  · intro h
    have hval : checkSessionExpiry auth now =
        ({ showWarning := false, expired := false }, false) := by
      simp only [checkSessionExpiry, htok, hexp, EXPIRY_WARNING_TIME]
      rw [if_neg (by omega), if_neg (by omega)]
    simp [checkSessionExpiryStep, hval]

/-- C4 witness: the spec scenario — login at 0 persists expiry 3599000 ms; the
poll at 3570000 shows the warning; the poll at 3599000 clears the vault. -/
theorem c4_session_timing_witness :
    ((login ⟨none, none, none⟩ 0 ⟨"u1", "a"⟩ "tok").1 =
        { token := some "tok", user := some ⟨"u1", "a"⟩,
          sessionExpiryTime := some (0 + 3599 * 1000) })
    ∧ (checkSessionExpiryStep
          { initialAuthState with token := some "tok", sessionExpiryTime := some 3599000 }
          ⟨some "tok", none, some 3599000⟩ 3570000 false).1.showExpiryWarning = true
    ∧ (checkSessionExpiryStep
          { initialAuthState with token := some "tok", sessionExpiryTime := some 3599000 }
          ⟨some "tok", none, some 3599000⟩ 3599000 false).2 =
        { token := none, user := none, sessionExpiryTime := none } := by
  refine ⟨(c4_session_timing ⟨none, none, none⟩ 0 3570000 ⟨"u1", "a"⟩ "tok"
      { initialAuthState with token := some "tok", sessionExpiryTime := some 3599000 }
      "tok" 3599000 rfl rfl).1.1, ?_, ?_⟩
  · exact ((c4_session_timing ⟨none, none, none⟩ 0 3570000 ⟨"u1", "a"⟩ "tok"
      { initialAuthState with token := some "tok", sessionExpiryTime := some 3599000 }
      "tok" 3599000 rfl rfl).2.2.1 (by norm_num)).1
  · exact ((c4_session_timing ⟨none, none, none⟩ 0 3599000 ⟨"u1", "a"⟩ "tok"
      { initialAuthState with token := some "tok", sessionExpiryTime := some 3599000 }
      "tok" 3599000 rfl rfl).2.1 (by norm_num)).1

/-- C5: the cached primary code is memory-only: switching to a conversation or
closing it resets the cached code to null, the persisted snapshot does not
depend on the chat slice, and a message fetch for a chat other than the
current one never installs its code — codes are not shared across
conversations. -/
theorem c5_primary_code_memory_only (s : ChatState) (chatId : String)
    (r : RootState) (c : ChatState) (msgs : List Message) (code : String)
    (hdiff : s.currentChatId ≠ some chatId) :
    (setCurrentChat s chatId).currentChatCode = none
    ∧ (clearCurrentChat s).currentChatCode = none
    ∧ persistedPayload { r with chat := c } = persistedPayload r
    ∧ (fetchChatMessagesFulfilled s chatId msgs code).currentChatCode =
        s.currentChatCode := by
  refine ⟨rfl, rfl, rfl, ?_⟩
  simp [fetchChatMessagesFulfilled, hdiff]

/-- C5 witness: switching from conversation c1 to c2 leaves no cached code,
and a fetch tagged for c2 while c1 is open does not install the code. -/
theorem c5_primary_code_memory_only_witness :
    (setCurrentChat ⟨[], some "c1", some "1234", false, none⟩ "c2").currentChatCode = none
    ∧ (clearCurrentChat ⟨[], some "c1", some "1234", false, none⟩).currentChatCode = none
    ∧ persistedPayload
        { (⟨initialAuthState, initialChatState, initialAppState⟩ : RootState) with
          chat := initialChatState } =
        persistedPayload ⟨initialAuthState, initialChatState, initialAppState⟩
    ∧ (fetchChatMessagesFulfilled ⟨[], some "c1", some "1234", false, none⟩
          "c2" [] "9999").currentChatCode =
        (⟨[], some "c1", some "1234", false, none⟩ : ChatState).currentChatCode :=
  c5_primary_code_memory_only ⟨[], some "c1", some "1234", false, none⟩ "c2"
    ⟨initialAuthState, initialChatState, initialAppState⟩ initialChatState [] "9999"
    (by decide)

/-- C6: calling verifySecondaryCode without a primary code rejects locally
with the missing-primary-context message and issues no network request; when
a request is issued, its X-Convo-Code header is exactly the supplied cached
primary code (never re-derived). -/
theorem c6_verify_secondary_requires_primary (args : VerifySecondaryArgs)
    (backendValid : Bool) :
    (args.primaryCode = "" →
       verifySecondaryCode args backendValid =
         (Except.error "Primary conversation code not found. Cannot verify secondary code.",
          none))
    ∧ (∀ req, (verifySecondaryCode args backendValid).2 = some req →
        req.convoCodeHeader = args.primaryCode
        ∧ req.secondCodeHeader = args.secondaryCode) := by
  constructor
  · intro h
    simp [verifySecondaryCode, h]
  · intro req hreq
    by_cases h : args.primaryCode = ""
    · simp [verifySecondaryCode, h] at hreq
    · cases backendValid <;>
        · simp [verifySecondaryCode, h] at hreq
          simp [← hreq]

/-- C6 witness: an empty primary code is rejected locally with no request; a
present primary code travels verbatim in the X-Convo-Code header. -/
theorem c6_verify_secondary_requires_primary_witness :
    verifySecondaryCode ⟨"c1", "m1", "s3cr3t", ""⟩ true =
      (Except.error "Primary conversation code not found. Cannot verify secondary code.",
       none)
    ∧ ((⟨"c1", "m1", "1234", "s3cr3t"⟩ : SecondaryVerifyRequest).convoCodeHeader = "1234"
        ∧ (⟨"c1", "m1", "1234", "s3cr3t"⟩ : SecondaryVerifyRequest).secondCodeHeader
            = "s3cr3t") :=
  ⟨(c6_verify_secondary_requires_primary ⟨"c1", "m1", "s3cr3t", ""⟩ true).1 rfl,
   (c6_verify_secondary_requires_primary ⟨"c1", "m1", "s3cr3t", "1234"⟩ true).2
     ⟨"c1", "m1", "1234", "s3cr3t"⟩ rfl⟩

/-- C7: approving a conversation checks newCode = confirmCode locally before
any network call — a mismatch fails with the code-mismatch error and no call
is made; with matching codes the call carries the chosen code, and on backend
success the conversation's status becomes approved. -/
theorem c7_approve_conversation (chatId entered confirm : String)
    (s : ChatState) (c : Chat) (resp : ApproveResponse)
    (hne : entered ≠ "") (hnc : confirm ≠ "")
    (hfound : findFirstChat s.chats chatId = some c) :
    (entered ≠ confirm →
       handleApproveConversation (some chatId) entered confirm =
         (some "Codes do not match.", none))
    ∧ (entered = confirm →
       handleApproveConversation (some chatId) entered confirm =
         (none, some { chatId := chatId, code := entered }))
    ∧ ((resp.httpStatus = 200 ∨ resp.httpStatus = 204) →
       approveConversation chatId entered resp =
         Except.ok (chatId, resp.status.getD "approved"))
    ∧ findFirstChat
        (approveConversationFulfilled s chatId (resp.status.getD "approved")).chats chatId
        = some { c with status := some (resp.status.getD "approved") } := by
  refine ⟨?_, ?_, ?_, ?_⟩
  · intro hmm
    simp [handleApproveConversation, hne, hnc, hmm]
  · intro heq
    simp [handleApproveConversation, hne, hnc, heq]
  · intro hok
    simp [approveConversation, hok]
  · have hcomm := findFirstChat_updateFirstChat s.chats chatId
      (fun ch => { ch with status := some (resp.status.getD "approved") })
      (fun ch => rfl)
    simp only [approveConversationFulfilled]
    rw [hcomm, hfound]
    rfl

/-- C7 witness: the spec scenario — approving with "abcd"/"abcx" fails locally
with no backend call; "abcd"/"abcd" issues the call and a 200 response turns
the pending conversation approved. -/
theorem c7_approve_conversation_witness :
    (handleApproveConversation (some "c1") "abcd" "abcx" =
        (some "Codes do not match.", none))
    ∧ (handleApproveConversation (some "c1") "abcd" "abcd" =
        (none, some { chatId := "c1", code := "abcd" }))
    ∧ approveConversation "c1" "abcd" ⟨200, none⟩ = Except.ok ("c1", "approved")
    ∧ findFirstChat (approveConversationFulfilled
        { initialChatState with
            chats := [⟨"c1", "Alice", none, 0, [], some "pending_approval"⟩] }
        "c1" ((none : Option String).getD "approved")).chats "c1"
        = some ⟨"c1", "Alice", none, 0, [], some "approved"⟩ := by
  refine ⟨?_, ?_, ?_, ?_⟩
  · exact (c7_approve_conversation "c1" "abcd" "abcx"
      { initialChatState with
          chats := [⟨"c1", "Alice", none, 0, [], some "pending_approval"⟩] }
      ⟨"c1", "Alice", none, 0, [], some "pending_approval"⟩ ⟨200, none⟩
      (by decide) (by decide) (by decide)).1 (by decide)
  · exact (c7_approve_conversation "c1" "abcd" "abcd"
      { initialChatState with
          chats := [⟨"c1", "Alice", none, 0, [], some "pending_approval"⟩] }
      ⟨"c1", "Alice", none, 0, [], some "pending_approval"⟩ ⟨200, none⟩
      (by decide) (by decide) (by decide)).2.1 rfl
  · exact (c7_approve_conversation "c1" "abcd" "abcd"
      { initialChatState with
          chats := [⟨"c1", "Alice", none, 0, [], some "pending_approval"⟩] }
      ⟨"c1", "Alice", none, 0, [], some "pending_approval"⟩ ⟨200, none⟩
      (by decide) (by decide) (by decide)).2.2.1 (Or.inl rfl)
  · exact (c7_approve_conversation "c1" "abcd" "abcd"
      { initialChatState with
          chats := [⟨"c1", "Alice", none, 0, [], some "pending_approval"⟩] }
      ⟨"c1", "Alice", none, 0, [], some "pending_approval"⟩ ⟨200, none⟩
      (by decide) (by decide) (by decide)).2.2.2

/-- C8: with duress active, the effect schedules the auto-logout timer for
30 minutes minus the elapsed time (logging out immediately when none
remains); when the timer fires with duress still active it alerts and forces
logout; after exiting duress the effect leaves no timer pending and a stray
firing dispatches no logout. -/
theorem c8_duress_hard_timeout (s : AppStateState) (now activatedAt : Int)
    (hact : s.sosModeActive = true)
    (htime : s.sosActivationTime = some activatedAt) :
    (0 < THIRTY_MINUTES - (now - activatedAt) →
       sosLogoutEffect s now =
         SosEffectResult.timerScheduled (THIRTY_MINUTES - (now - activatedAt)))
    ∧ (THIRTY_MINUTES - (now - activatedAt) ≤ 0 →
       sosLogoutEffect s now = SosEffectResult.immediateLogout)
    ∧ sosTimerFire s = { alertShown := true, logoutDispatched := true }
    ∧ (∀ n : Int, sosLogoutEffect (exitSosMode s) n = SosEffectResult.noTimer)
    ∧ sosTimerFire (exitSosMode s) = { alertShown := false, logoutDispatched := false } := by
  refine ⟨?_, ?_, ?_, fun n => rfl, rfl⟩
  · intro h
    have h2 : ¬ (THIRTY_MINUTES - (now - activatedAt) ≤ 0) := by omega
    simp [sosLogoutEffect, htime, hact, h2]
  · intro h
    simp [sosLogoutEffect, htime, hact, h]
  · simp [sosTimerFire, hact]

/-- C8 witness: duress activated at 0, effect run at 1000ms schedules the
timer for 1799000ms; firing while active logs out; after exit nothing fires. -/
theorem c8_duress_hard_timeout_witness :
    sosLogoutEffect ⟨true, some 0, some DisguiseType.weather⟩ 1000 =
      SosEffectResult.timerScheduled (THIRTY_MINUTES - (1000 - 0))
    ∧ sosTimerFire ⟨true, some 0, some DisguiseType.weather⟩ =
        { alertShown := true, logoutDispatched := true }
    ∧ sosTimerFire (exitSosMode ⟨true, some 0, some DisguiseType.weather⟩) =
        { alertShown := false, logoutDispatched := false } := by
  refine ⟨?_, ?_, ?_⟩
  · exact (c8_duress_hard_timeout ⟨true, some 0, some DisguiseType.weather⟩ 1000 0
      rfl rfl).1 (by norm_num [THIRTY_MINUTES])
  · exact (c8_duress_hard_timeout ⟨true, some 0, some DisguiseType.weather⟩ 1000 0
      rfl rfl).2.2.1
  · exact (c8_duress_hard_timeout ⟨true, some 0, some DisguiseType.weather⟩ 1000 0
      rfl rfl).2.2.2.2

/-- C9: entering duress while already active changes nothing (activation time
and disguise are sticky), activation is idempotent, entering never touches the
disguise, the selection effect never re-rolls once a disguise is chosen, and
on first activation exactly one disguise from the three-element set is
selected. -/
theorem c9_duress_idempotent (s : AppStateState) (now : Int) (i : Fin 3)
    (d : DisguiseType) (hactive : s.sosModeActive = true)
    (hd : s.selectedDisguise = some d) :
    enterSosMode s now = s
    ∧ (∀ s0 : AppStateState, ∀ t1 t2 : Int,
        enterSosMode (enterSosMode s0 t1) t2 = enterSosMode s0 t1)
    ∧ (∀ s0 : AppStateState, ∀ n : Int,
        (enterSosMode s0 n).selectedDisguise = s0.selectedDisguise)
    ∧ selectDisguiseEffect s i = s
    ∧ (∀ s0 : AppStateState, ∀ j : Fin 3, s0.sosModeActive = true →
        s0.selectedDisguise = none →
        (selectDisguiseEffect s0 j).selectedDisguise = some (disguiseOptions.get j)
        ∧ disguiseOptions.get j ∈ disguiseOptions) := by
  refine ⟨?_, ?_, ?_, ?_, ?_⟩
  · cases s
    simp_all [enterSosMode]
  · intro s0 t1 t2
    cases s0 with
    | mk a b c => cases a <;> simp [enterSosMode]
  · intro s0 n
    cases s0 with
    | mk a b c => cases a <;> simp [enterSosMode]
  · simp [selectDisguiseEffect, hd]
  · intro s0 j h1 h2
    refine ⟨?_, List.get_mem disguiseOptions j.1 j.2⟩
    simp [selectDisguiseEffect, h1, h2, setSosDisguise]

/-- C9 witness: repeated activation on an active state with a chosen disguise
is a no-op, and a first activation selects one of the three disguises. -/
theorem c9_duress_idempotent_witness :
    enterSosMode ⟨true, some 5, some DisguiseType.notes⟩ 77 =
      ⟨true, some 5, some DisguiseType.notes⟩
    ∧ selectDisguiseEffect ⟨true, some 5, some DisguiseType.notes⟩ ⟨0, by norm_num⟩ =
        ⟨true, some 5, some DisguiseType.notes⟩
    ∧ ((selectDisguiseEffect ⟨true, some 5, none⟩ ⟨0, by norm_num⟩).selectedDisguise =
          some (disguiseOptions.get ⟨0, by decide⟩)
        ∧ disguiseOptions.get ⟨0, by decide⟩ ∈ disguiseOptions) := by
  refine ⟨?_, ?_, ?_⟩
  · exact (c9_duress_idempotent ⟨true, some 5, some DisguiseType.notes⟩ 77 ⟨0, by norm_num⟩
      DisguiseType.notes rfl rfl).1
  · exact (c9_duress_idempotent ⟨true, some 5, some DisguiseType.notes⟩ 77 ⟨0, by norm_num⟩
      DisguiseType.notes rfl rfl).2.2.2.1
  · exact (c9_duress_idempotent ⟨true, some 5, some DisguiseType.notes⟩ 77 ⟨0, by norm_num⟩
      DisguiseType.notes rfl rfl).2.2.2.2 ⟨true, some 5, none⟩ ⟨0, by norm_num⟩ rfl rfl

/-- C10: the appState slice (duress flag, activation time, disguise) is the
one slice wrapped by persistReducer over AsyncStorage, and on startup the
persisted snapshot is rehydrated into the appState slice while the other
slices start from their initial states. -/
theorem c10_appstate_persistence (stored : AppStateState) (r : RootState) :
    sliceNames.filter persistWrapped = ["appState"]
    ∧ appStatePersistConfigKey = "appState"
    ∧ (rehydrate (some stored)).appState = stored
    ∧ (rehydrate (some stored)).appState.sosModeActive = stored.sosModeActive
    ∧ (rehydrate (some stored)).appState.sosActivationTime = stored.sosActivationTime
    ∧ (rehydrate (some stored)).appState.selectedDisguise = stored.selectedDisguise
    ∧ (rehydrate (some (persistedPayload r))).appState = r.appState
    ∧ persistedPayload { r with chat := initialChatState, auth := initialAuthState }
        = persistedPayload r
    ∧ (rehydrate (some stored)).auth = initialAuthState
    ∧ (rehydrate (some stored)).chat = initialChatState := by
  exact ⟨by decide, rfl, rfl, rfl, rfl, rfl, rfl, rfl, rfl, rfl⟩

end ChatApp
